import Mathlib

/-!
Shallow embedding of the winter-school-2023 repository:
  - src/simulation/sim1_rigid_body/costs.py  (cost classes for an IK/OCP optimizer)
  - src/perception/05_tracker_webcam.py      (webcam driver for the m3t tracker)

Numbers are modelled by rationals.  Calls into the external libraries
(pinocchio, numpy transcendentals, the m3t tracker, OpenCV) are modelled as
fields of explicit record parameters, so every definition stays computable and
every theorem quantifies over the opaque library behaviour.
-/

/-- Vectors are lists of rationals, mirroring one-dimensional numpy arrays. -/
abbrev Vec := List ℚ

/-- Matrices are lists of rows, mirroring two-dimensional numpy arrays. -/
abbrev Mat := List Vec

/-- Elementwise difference a - b of two equal-length vectors. -/
def npSub (a b : Vec) : Vec := List.zipWith (fun x y => x - y) a b

/-- Elementwise negation -a of a vector. -/
def npNeg (a : Vec) : Vec := a.map (fun x => -x)

/-- Scalar multiple c * a of a vector. -/
def npScale (c : ℚ) (a : Vec) : Vec := a.map (fun x => c * x)

/-- Dot product of two equal-length vectors. -/
def npDot (a b : Vec) : ℚ := (List.zipWith (fun x y => x * y) a b).sum

/-- Python sum(v ** 2): the sum of the squared entries of a vector. -/
def npSumSq (v : Vec) : ℚ := (v.map (fun x => x ^ 2)).sum

/-- Product J.T @ r of the transpose of a matrix with a vector. -/
def npMatTVec (J : Mat) (r : Vec) : Vec := J.transpose.map (fun col => npDot col r)

/-- Python runtime errors raised by the scripts of this repository. -/
inductive PyErr
  | valueError
  | attributeError
  | nameError
  deriving DecidableEq

/-- The fields of a pinocchio model object that costs.py reads:
rmodel.nq, rmodel.nv, rmodel.nframes and rmodel.joints[j].nq. -/
structure RModel where
  nq : Nat
  nv : Nat
  nframes : Nat
  jointsNq : Nat → Nat

-- Structural description of the six cost classes: which methods each class
-- defines and which attributes its constructor stores on self.

/-- Method and constructor-attribute listing of one Python class. -/
structure ClassDesc where
  name : String
  methods : List String
  initAttrs : List String
  deriving DecidableEq

/-- Class Cost3d, costs.py lines 11 to 43. -/
def Cost3dDesc : ClassDesc :=
  { name := ("Cost3d"),
    methods := [("__init__"), ("residual"), ("calc"), ("callback"), ("calcDiff")],
    initAttrs := [("rmodel"), ("rdata"), ("ptarget"), ("frame_index"), ("viz")] }

/-- Class Cost6d, costs.py lines 47 to 78. -/
def Cost6dDesc : ClassDesc :=
  { name := ("Cost6d"),
    methods := [("__init__"), ("residual"), ("calc"), ("callback"), ("calcDiff")],
    initAttrs := [("rmodel"), ("rdata"), ("Mtarget"), ("frame_index"), ("viz")] }

/-- Class CostPosture, costs.py lines 82 to 103.  Its constructor stores only
qref and removeFreeFlyer; the comment in the source says rmodel, rdata and viz
are taken to respect the API but are not useful. -/
def CostPostureDesc : ClassDesc :=
  { name := ("CostPosture"),
    methods := [("__init__"), ("residual"), ("calc"), ("calcDiff")],
    initAttrs := [("qref"), ("removeFreeFlyer")] }

/-- Class CostGravity, costs.py lines 107 to 122. -/
def CostGravityDesc : ClassDesc :=
  { name := ("CostGravity"),
    methods := [("__init__"), ("residual"), ("calc"), ("calcDiff")],
    initAttrs := [("rmodel"), ("rdata"), ("viz")] }

/-- Class CostWeightedGravity, costs.py lines 125 to 143.  It defines no
residual method. -/
def CostWeightedGravityDesc : ClassDesc :=
  { name := ("CostWeightedGravity"),
    methods := [("__init__"), ("calc"), ("calcDiff")],
    initAttrs := [("rmodel"), ("rdata"), ("viz"), ("v0")] }

/-- Class CostPostureDiff, costs.py lines 147 to 160.  Its constructor stores
rmodel and qref but not rdata. -/
def CostPostureDiffDesc : ClassDesc :=
  { name := ("CostPostureDiff"),
    methods := [("__init__"), ("residual"), ("calc"), ("calcDiff")],
    initAttrs := [("rmodel"), ("qref")] }

/-- The six cost classes of costs.py, in source order. -/
def costClasses : List ClassDesc :=
  [Cost3dDesc, Cost6dDesc, CostPostureDesc, CostGravityDesc,
   CostWeightedGravityDesc, CostPostureDiffDesc]

/-- A class stores a target when its constructor stores ptarget (a position),
Mtarget (a full pose) or qref (a reference configuration). -/
def costClassHasTarget (c : ClassDesc) : Bool :=
  c.initAttrs.contains ("ptarget") || c.initAttrs.contains ("Mtarget")
    || c.initAttrs.contains ("qref")

/-- The uniform shape the specification ascribes to every cost class: the
constructor stores the model/data pair and a target, and the class has
residual, calc and calcDiff methods. -/
def costClassUniformAPI (c : ClassDesc) : Bool :=
  c.initAttrs.contains ("rmodel") && c.initAttrs.contains ("rdata")
    && costClassHasTarget c
    && c.methods.contains ("residual") && c.methods.contains ("calc")
    && c.methods.contains ("calcDiff")

section CostClasses

variable {RData SE3 V : Type}

-- Cost3d ------------------------------------------------------------------

/-- The pinocchio entry points used by Cost3d: framesForwardKinematics and
computeJointJacobians return the mutated data object, oMfTranslation reads
rdata.oMf[i].translation, getFrameJacobian is taken in LOCAL_WORLD_ALIGNED. -/
structure Cost3dPin (RData : Type) where
  framesForwardKinematics : RModel → RData → Vec → RData
  oMfTranslation : RData → Nat → Vec
  computeJointJacobians : RModel → RData → Vec → RData
  getFrameJacobian : RModel → RData → Nat → Mat

/-- Attributes stored by Cost3d.__init__, costs.py lines 12 to 17. -/
structure Cost3dObj (RData V : Type) where
  rmodel : RModel
  rdata : RData
  ptarget : Vec
  frame_index : Nat
  viz : Option V

/-- Cost3d.__init__: defaults are ptarget = np.array([0.5, 0.1, 0.27]) and
frame_index = rmodel.nframes - 1. -/
def Cost3d.init (rmodel : RModel) (rdata : RData) (frame_index? : Option Nat)
    (ptarget? : Option Vec) (viz : Option V) : Cost3dObj RData V :=
  { rmodel := rmodel, rdata := rdata,
    ptarget := ptarget?.getD [1/2, 1/10, 27/100],
    frame_index := frame_index?.getD (rmodel.nframes - 1),
    viz := viz }

/-- Cost3d.residual, costs.py lines 19 to 22: run framesForwardKinematics,
read the frame placement and return translation minus target. -/
def Cost3d.residual (pin : Cost3dPin RData) (self : Cost3dObj RData V)
    (q : Vec) : Vec :=
  let rdata := pin.framesForwardKinematics self.rmodel self.rdata q
  npSub (pin.oMfTranslation rdata self.frame_index) self.ptarget

/-- Cost3d.calc, costs.py lines 24 to 25: sum(residual(q) ** 2). -/
def Cost3d.calc (pin : Cost3dPin RData) (self : Cost3dObj RData V)
    (q : Vec) : ℚ :=
  npSumSq (Cost3d.residual pin self q)

/-- Cost3d.calcDiff, costs.py lines 38 to 43: the source slices the first
three rows of the frame jacobian and returns 2 * J.T @ (translation - target). -/
def Cost3d.calcDiff (pin : Cost3dPin RData) (self : Cost3dObj RData V)
    (q : Vec) : Vec :=
  let d1 := pin.framesForwardKinematics self.rmodel self.rdata q
  let d2 := pin.computeJointJacobians self.rmodel d1 q
  let Mtrans := pin.oMfTranslation d2 self.frame_index
  let J := (pin.getFrameJacobian self.rmodel d2 self.frame_index).take 3
  npScale 2 (npMatTVec J (npSub Mtrans self.ptarget))

-- Cost6d ------------------------------------------------------------------

/-- The pinocchio entry points used by Cost6d.  The defaultMtarget field
stands for pin.SE3 built from pin.utils.rotate applied at x and pi/4 with
translation np.array([0.5, 0.1, 0.27]), the default target of __init__. -/
structure Cost6dPin (RData SE3 : Type) where
  forwardKinematics : RModel → RData → Vec → RData
  updateFramePlacement : RModel → RData → Nat → RData × SE3
  inverse : SE3 → SE3
  compose : SE3 → SE3 → SE3
  log6 : SE3 → Vec
  Jlog6 : SE3 → Mat
  computeFrameJacobian : RModel → RData → Vec → Nat → RData × Mat
  defaultMtarget : SE3

/-- Attributes stored by Cost6d.__init__, costs.py lines 48 to 54. -/
structure Cost6dObj (RData SE3 V : Type) where
  rmodel : RModel
  rdata : RData
  Mtarget : SE3
  frame_index : Nat
  viz : Option V

/-- Cost6d.__init__: defaults are Mtarget = pin.SE3(rotate(x, pi/4),
[0.5, 0.1, 0.27]) and frame_index = rmodel.nframes - 1. -/
def Cost6d.init (pin : Cost6dPin RData SE3) (rmodel : RModel) (rdata : RData)
    (frame_index? : Option Nat) (Mtarget? : Option SE3) (viz : Option V) :
    Cost6dObj RData SE3 V :=
  { rmodel := rmodel, rdata := rdata,
    Mtarget := Mtarget?.getD pin.defaultMtarget,
    frame_index := frame_index?.getD (rmodel.nframes - 1),
    viz := viz }

/-- Body shared by Cost6d.residual and Cost6d.calcDiff: the residual vector
together with deltaM = Mtarget.inverse() * M, which the Python code stores on
self.deltaM when residual runs (costs.py lines 56 to 61). -/
def Cost6d.residualAux (pin : Cost6dPin RData SE3) (self : Cost6dObj RData SE3 V)
    (q : Vec) : Vec × SE3 :=
  let d1 := pin.forwardKinematics self.rmodel self.rdata q
  let M := (pin.updateFramePlacement self.rmodel d1 self.frame_index).2
  let deltaM := pin.compose (pin.inverse self.Mtarget) M
  (pin.log6 deltaM, deltaM)

/-- Cost6d.residual: pin.log(deltaM).vector. -/
def Cost6d.residual (pin : Cost6dPin RData SE3) (self : Cost6dObj RData SE3 V)
    (q : Vec) : Vec :=
  (Cost6d.residualAux pin self q).1

/-- Cost6d.calc, costs.py lines 63 to 64: sum(residual(q) ** 2). -/
def Cost6d.calc (pin : Cost6dPin RData SE3) (self : Cost6dObj RData SE3 V)
    (q : Vec) : ℚ :=
  npSumSq (Cost6d.residual pin self q)

/-- Cost6d.calcDiff, costs.py lines 74 to 78: J is computed first from the
stored rdata, then residual refreshes deltaM, and the result is
2 * J.T @ Jlog.T @ r. -/
def Cost6d.calcDiff (pin : Cost6dPin RData SE3) (self : Cost6dObj RData SE3 V)
    (q : Vec) : Vec :=
  let J := (pin.computeFrameJacobian self.rmodel self.rdata q self.frame_index).2
  let ra := Cost6d.residualAux pin self q
  npScale 2 (npMatTVec J (npMatTVec (pin.Jlog6 ra.2) ra.1))

/-- Names bound at the top level of costs.py when the module is imported:
the imports of lines 1 to 7 and the six class statements.  The block guarded
by the main check binds further names when the file runs as a script, but
never an M. -/
def costsModuleGlobals : List String :=
  [("time"), ("np"), ("pin"), ("det"), ("eig"), ("inv"), ("norm"), ("pinv"),
   ("svd"), ("vizutils"), ("Cost3d"), ("Cost6d"), ("CostPosture"),
   ("CostGravity"), ("CostWeightedGravity"), ("CostPostureDiff")]

/-- Python name resolution as used inside a method body of costs.py: a name
resolves against the local scope, then the module globals; otherwise the
lookup raises NameError. -/
def lookupName (locals : List String) (n : String) : Except PyErr Unit :=
  if n ∈ locals ∨ n ∈ costsModuleGlobals then Except.ok () else Except.error PyErr.nameError

/-- Cost6d.callback, costs.py lines 66 to 72: return immediately when viz is
None; otherwise line 69 evaluates pin.SE3ToXYZQUATtuple(M) whose argument M
is resolved against the local scope (self, q) and the module globals.  The
remaining viewer calls are external side effects modelled as unit. -/
def Cost6d.callback (self : Cost6dObj RData SE3 V) (_q : Vec) : Except PyErr Unit :=
  match self.viz with
  | none => Except.ok ()
  | some _ =>
    match lookupName [("self"), ("q")] ("M") with
    | Except.error e => Except.error e
    | Except.ok _ => Except.ok ()

-- CostPosture -------------------------------------------------------------

/-- Attributes stored by CostPosture.__init__, costs.py lines 83 to 86: only
qref and removeFreeFlyer.  The rmodel? field models the absent rmodel
attribute: __init__ never assigns self.rmodel, so it is always none, and the
attribute read self.rmodel in calcDiff goes through it. -/
structure CostPostureObj where
  qref : Vec
  removeFreeFlyer : Bool
  rmodel? : Option RModel

/-- CostPosture.__init__: qref defaults to pin.randomConfiguration(rmodel),
passed here as the randomConfiguration argument; removeFreeFlyer is
rmodel.joints[1].nq == 7; nothing else is stored on self. -/
def CostPosture.init (rmodel : RModel) (_rdata : RData) (qref? : Option Vec)
    (randomConfiguration : Vec) : CostPostureObj :=
  { qref := qref?.getD randomConfiguration,
    removeFreeFlyer := rmodel.jointsNq 1 == 7,
    rmodel? := none }

/-- CostPosture.residual, costs.py lines 88 to 92: (q - qref)[7:] when the
free flyer is removed, q - qref otherwise. -/
def CostPosture.residual (self : CostPostureObj) (q : Vec) : Vec :=
  if self.removeFreeFlyer then (npSub q self.qref).drop 7
  else npSub q self.qref

/-- CostPosture.calc, costs.py lines 94 to 95: sum(residual(q) ** 2). -/
def CostPosture.calc (self : CostPostureObj) (q : Vec) : ℚ :=
  npSumSq (CostPosture.residual self q)

/-- CostPosture.calcDiff, costs.py lines 97 to 103.  The free-flyer branch
reads self.rmodel.nv; since __init__ stores no rmodel attribute the read
raises AttributeError.  Were the attribute present, g = np.zeros(nv) with
g[6:] = 2 * residual(q) would be returned. -/
def CostPosture.calcDiff (self : CostPostureObj) (q : Vec) : Except PyErr Vec :=
  if self.removeFreeFlyer then
    match self.rmodel? with
    | none => Except.error PyErr.attributeError
    | some m =>
      let g := List.replicate m.nv (0 : ℚ)
      Except.ok (g.take 6 ++ npScale 2 (CostPosture.residual self q))
  else
    Except.ok (npScale 2 (CostPosture.residual self q))

-- CostGravity -------------------------------------------------------------

/-- The pinocchio entry points used by CostGravity. -/
structure CostGravityPin (RData : Type) where
  computeGeneralizedGravity : RModel → RData → Vec → Vec
  computeGeneralizedGravityDerivatives : RModel → RData → Vec → Mat

/-- Attributes stored by CostGravity.__init__, costs.py lines 108 to 111. -/
structure CostGravityObj (RData V : Type) where
  rmodel : RModel
  rdata : RData
  viz : Option V

/-- CostGravity.__init__. -/
def CostGravity.init (rmodel : RModel) (rdata : RData) (viz : Option V) :
    CostGravityObj RData V :=
  { rmodel := rmodel, rdata := rdata, viz := viz }

/-- CostGravity.residual, costs.py lines 113 to 114. -/
def CostGravity.residual (pin : CostGravityPin RData)
    (self : CostGravityObj RData V) (q : Vec) : Vec :=
  pin.computeGeneralizedGravity self.rmodel self.rdata q

/-- CostGravity.calc, costs.py lines 116 to 117: sum(residual(q) ** 2). -/
def CostGravity.calc (pin : CostGravityPin RData)
    (self : CostGravityObj RData V) (q : Vec) : ℚ :=
  npSumSq (CostGravity.residual pin self q)

/-- CostGravity.calcDiff, costs.py lines 119 to 122: 2 * G.T @ g. -/
def CostGravity.calcDiff (pin : CostGravityPin RData)
    (self : CostGravityObj RData V) (q : Vec) : Vec :=
  let g := CostGravity.residual pin self q
  let G := pin.computeGeneralizedGravityDerivatives self.rmodel self.rdata q
  npScale 2 (npMatTVec G g)

-- CostWeightedGravity -----------------------------------------------------

/-- The pinocchio entry points used by CostWeightedGravity.  The derivative
routines return the mutated data object from which dtau_dq, ddq, ddq_dq and
tau are then read. -/
structure CostWeightedGravityPin (RData : Type) where
  computeGeneralizedGravity : RModel → RData → Vec → Vec
  aba : RModel → RData → Vec → Vec → Vec → Vec
  computeABADerivatives : RModel → RData → Vec → Vec → Vec → RData
  computeRNEADerivatives : RModel → RData → Vec → Vec → Vec → RData
  dtau_dq : RData → Mat
  ddq : RData → Vec
  ddq_dq : RData → Mat
  tau : RData → Vec

/-- Attributes stored by CostWeightedGravity.__init__, costs.py lines 129 to
133: the model/data pair, viz and the zero velocity v0. -/
structure CostWeightedGravityObj (RData V : Type) where
  rmodel : RModel
  rdata : RData
  viz : Option V
  v0 : Vec

/-- CostWeightedGravity.__init__: v0 = np.zeros(rmodel.nv). -/
def CostWeightedGravity.init (rmodel : RModel) (rdata : RData) (viz : Option V) :
    CostWeightedGravityObj RData V :=
  { rmodel := rmodel, rdata := rdata, viz := viz,
    v0 := List.replicate rmodel.nv (0 : ℚ) }

/-- CostWeightedGravity.calc, costs.py lines 135 to 138: the dot product of
taugrav = -aba(q, 0, 0) with g(q).  The class defines no residual method. -/
def CostWeightedGravity.calc (pin : CostWeightedGravityPin RData)
    (self : CostWeightedGravityObj RData V) (q : Vec) : ℚ :=
  let g := pin.computeGeneralizedGravity self.rmodel self.rdata q
  let taugrav := npNeg (pin.aba self.rmodel self.rdata q self.v0 self.v0)
  npDot taugrav g

/-- CostWeightedGravity.calcDiff, costs.py lines 140 to 143: after running
both derivative routines, -dtau_dq.T @ ddq - ddq_dq.T @ tau. -/
def CostWeightedGravity.calcDiff (pin : CostWeightedGravityPin RData)
    (self : CostWeightedGravityObj RData V) (q : Vec) : Vec :=
  let d1 := pin.computeABADerivatives self.rmodel self.rdata q self.v0 self.v0
  let d2 := pin.computeRNEADerivatives self.rmodel d1 q self.v0 self.v0
  npSub (npNeg (npMatTVec (pin.dtau_dq d2) (pin.ddq d2)))
        (npMatTVec (pin.ddq_dq d2) (pin.tau d2))

-- CostPostureDiff ---------------------------------------------------------

/-- The pinocchio entry points used by CostPostureDiff; dDifference returns
the pair of jacobians of which the source keeps the first. -/
structure CostPostureDiffPin where
  difference : RModel → Vec → Vec → Vec
  dDifference : RModel → Vec → Vec → Mat × Mat

/-- Attributes stored by CostPostureDiff.__init__, costs.py lines 148 to 150:
rmodel and qref, but not rdata. -/
structure CostPostureDiffObj where
  rmodel : RModel
  qref : Vec

/-- CostPostureDiff.__init__: qref defaults to pin.randomConfiguration. -/
def CostPostureDiff.init (rmodel : RModel) (_rdata : RData) (qref? : Option Vec)
    (randomConfiguration : Vec) : CostPostureDiffObj :=
  { rmodel := rmodel, qref := qref?.getD randomConfiguration }

/-- CostPostureDiff.residual, costs.py lines 152 to 153. -/
def CostPostureDiff.residual (pin : CostPostureDiffPin)
    (self : CostPostureDiffObj) (q : Vec) : Vec :=
  pin.difference self.rmodel q self.qref

/-- CostPostureDiff.calc, costs.py lines 155 to 156: sum(residual(q) ** 2). -/
def CostPostureDiff.calc (pin : CostPostureDiffPin)
    (self : CostPostureDiffObj) (q : Vec) : ℚ :=
  npSumSq (CostPostureDiff.residual pin self q)

/-- CostPostureDiff.calcDiff, costs.py lines 158 to 160: 2 * J.T @ residual. -/
def CostPostureDiff.calcDiff (pin : CostPostureDiffPin)
    (self : CostPostureDiffObj) (q : Vec) : Vec :=
  let J := (pin.dDifference self.rmodel q self.qref).1
  npScale 2 (npMatTVec J (CostPostureDiff.residual pin self q))

end CostClasses

-- Self-test block of costs.py (lines 167 to 237) --------------------------

/-- Tdiff1, costs.py lines 171 to 186, in the scalar-output case used by the
gradient tests: for each k in range(nv) the perturbation vector holds eps at
index k and zero elsewhere (the source writes it by setting and clearing one
slot of a zero vector), and the column is (func(exp(q, v)) - func(q)) / eps.
A scalar func lands in the np.array branch of the source. -/
def Tdiff1 (func : Vec → ℚ) (exp : Vec → Vec → Vec) (nv : Nat) (q : Vec)
    (eps : ℚ) : Vec :=
  let f0 := func q
  (List.range nv).map (fun k =>
    (func (exp q ((List.range nv).map (fun j => if j == k then eps else 0))) - f0) / eps)

/-- Whether a gradient test compares norm(Tg - Tgn) directly or divided by
cost.calc(q). -/
inductive NormMode
  | absolute
  | relative
  deriving DecidableEq

/-- One assert of the self-test block: the cost class under test, the norm
mode of the comparison, and the threshold. -/
structure GradTest where
  costClass : String
  mode : NormMode
  tol : ℚ
  deriving DecidableEq

/-- The six asserts of the self-test block, costs.py lines 197 to 237, in
source order. -/
def gradientTests : List GradTest :=
  [{ costClass := ("Cost3d"), mode := NormMode.absolute, tol := 1/10000 },
   { costClass := ("Cost6d"), mode := NormMode.absolute, tol := 1/10000 },
   { costClass := ("CostPosture"), mode := NormMode.absolute, tol := 1/10000 },
   { costClass := ("CostGravity"), mode := NormMode.relative, tol := 1/10000 },
   { costClass := ("CostWeightedGravity"), mode := NormMode.relative, tol := 1/10000 },
   { costClass := ("CostPostureDiff"), mode := NormMode.relative, tol := 1/10000 }]

/-- Stand-in for the Talos model the self-test loads with robex.loadTalos():
a humanoid whose first joint is the free flyer, so joints[1].nq is 7; the
dimensions match Talos (nq 39, nv 38).  Only jointsNq at 1 is read along the
CostPosture code path exercised below. -/
def talosModel : RModel :=
  { nq := 39, nv := 38, nframes := 1, jointsNq := fun j => if j == 1 then 7 else 1 }

/-- The CostPosture case of the self-test block, costs.py lines 211 to 216:
construct the cost with default qref (a random configuration), compute
Tg = cost.calcDiff(q) and Tgn = Tdiffq(cost.calc, q), then evaluate the
assert.  The norm comparison is expressed on squared norms to stay in the
rationals: norm(d) is below tol exactly when sumSq(d) is below tol squared.
An error raised by calcDiff propagates before the assert is reached. -/
def costPostureSelfTest (m : RModel) (integrate : Vec → Vec → Vec)
    (randq q : Vec) (eps : ℚ) : Except PyErr Bool :=
  let cost := CostPosture.init m () none randq
  match CostPosture.calcDiff cost q with
  | Except.error e => Except.error e
  | Except.ok Tg =>
    let Tgn := Tdiff1 (fun qq => CostPosture.calc cost qq) integrate m.nv q eps
    Except.ok (decide (npSumSq (npSub Tg Tgn) < (1/10000 : ℚ) ^ 2))

-- Webcam driver, 05_tracker_webcam.py --------------------------------------

/-- The numpy transcendental functions used at line 39 of the webcam script,
kept opaque. -/
structure NumpyMath where
  tan : ℚ → ℚ
  deg2rad : ℚ → ℚ

/-- Shape of a captured frame: frame.shape unpacks to (height, width,
channels). -/
structure CamFrame where
  height : Nat
  width : Nat
  channels : Nat
  deriving DecidableEq

/-- The intrinsics_approx record of lines 40 to 47. -/
structure Intrinsics where
  fu : ℚ
  fv : ℚ
  ppu : ℚ
  ppv : ℚ
  width : ℚ
  height : ℚ
  deriving DecidableEq

/-- Line 39: f_approx = (width/2) / np.tan(np.deg2rad(args.fov) / 2). -/
def f_approx (np : NumpyMath) (fov width : ℚ) : ℚ :=
  (width / 2) / np.tan (np.deg2rad fov / 2)

/-- Lines 40 to 47: the intrinsics record built once from the field of view
and the first frame size, with both focal lengths equal to f_approx and the
principal point at the frame center. -/
def intrinsics_approx (np : NumpyMath) (fov width height : ℚ) : Intrinsics :=
  { fu := f_approx np fov width,
    fv := f_approx np fov width,
    ppu := width / 2,
    ppv := height / 2,
    width := width,
    height := height }

/-- Line 36: height, width, _ = frame.shape.  When the capture returned no
frame, frame is None and the attribute read frame.shape raises
AttributeError. -/
def frameShape (frame? : Option CamFrame) : Except PyErr (Nat × Nat) :=
  match frame? with
  | none => Except.error PyErr.attributeError
  | some f => Except.ok (f.height, f.width)

/-- Lines 34 to 47 of the webcam script: one vid.read() whose success flag is
ignored, the shape unpacking, and the intrinsics construction.  This runs
before the tracking loop. -/
def startupIntrinsics (np : NumpyMath) (fov : ℚ) (readResult : Bool × Option CamFrame) :
    Except PyErr Intrinsics :=
  match frameShape readResult.2 with
  | Except.error e => Except.error e
  | Except.ok hw => Except.ok (intrinsics_approx np fov (hw.2 : ℚ) (hw.1 : ℚ))

-- Command-line interface, lines 16 to 29 -----------------------------------

/-- Values an argument of the webcam script can take. -/
inductive PyVal
  | str (s : String)
  | float (x : ℚ)
  | bool (b : Bool)
  deriving DecidableEq

/-- One add_argument call: the option strings, the destination, whether the
argument is required, and its default. -/
structure ArgSpec where
  flags : List String
  dest : String
  required : Bool
  default : Option PyVal
  deriving DecidableEq

/-- The six add_argument calls of parse_script_input, lines 22 to 27, in
source order. -/
def webcamArgSpecs : List ArgSpec :=
  [{ flags := [("-b"), ("--body_name")], dest := ("body_name"),
     required := true, default := none },
   { flags := [("-m"), ("--models_dir")], dest := ("models_dir"),
     required := true, default := none },
   { flags := [("--fov")], dest := ("fov"),
     required := false, default := some (PyVal.float 50) },
   { flags := [("--scale_geometry")], dest := ("scale_geometry"),
     required := false, default := some (PyVal.float (1/1000)) },
   { flags := [("--tmp_dir")], dest := ("tmp_dir"),
     required := false, default := some (PyVal.str ("tmp")) },
   { flags := [("--use_region")], dest := ("use_region"),
     required := false, default := some (PyVal.bool false) }]

/-- Argparse semantics for one argument: a supplied value wins; a missing
required argument is a parse error; otherwise the default is used. -/
def resolveArg (given : List (String × PyVal)) (a : ArgSpec) :
    Except String (String × Option PyVal) :=
  match List.lookup a.dest given with
  | some v => Except.ok (a.dest, some v)
  | none =>
    if a.required then Except.error a.dest
    else Except.ok (a.dest, a.default)

/-- Argparse semantics for the whole specification list: resolve the
arguments in order, stopping at the first missing required one. -/
def parseArgs (specs : List ArgSpec) (given : List (String × PyVal)) :
    Except String (List (String × Option PyVal)) :=
  match specs with
  | [] => Except.ok []
  | a :: rest =>
    match resolveArg given a with
    | Except.error e => Except.error e
    | Except.ok kv =>
      match parseArgs rest given with
      | Except.error e => Except.error e
      | Except.ok kvs => Except.ok (kv :: kvs)

-- Tracking loop, lines 83 to 111 -------------------------------------------

/-- ASCII code of the d key, ord at d in line 91. -/
def ordD : Int := 100

/-- ASCII code of the x key, ord at x in line 95. -/
def ordX : Int := 120

/-- ASCII code of the q key, ord at q in line 98. -/
def ordQ : Int := 113

/-- The mutable program state the loop body touches: the first and tracking
flags, the iteration counter i, body.body2world_pose and the image stored on
color_camera. -/
structure LoopState (F P : Type) where
  first : Bool
  tracking : Bool
  i : Nat
  pose : P
  camImage : Option F
  deriving DecidableEq

/-- The external collaborators of the loop: the tracker camera update check,
the pose transformation performed by tracker.ExecuteTrackingStep, and the
fixed initial body2world_pose computed before the loop. -/
structure LoopEnv (F P : Type) where
  updateCameras : Option F → Bool
  trackerStep : Nat → P → P
  body2world_pose : P

/-- Outcome of one loop iteration: continue with a new state, or leave the
loop (the break of line 99). -/
inductive LoopStep (σ : Type)
  | cont (s : σ)
  | brk (s : σ)
  deriving DecidableEq

/-- One iteration of the while loop, lines 83 to 111.  Inputs of the
iteration are the ignored success flag and frame of vid.read() and the
cv2.waitKey result k.  The body stores the frame on the camera, raises
ValueError when tracker.UpdateCameras reports malformed images, handles the
d, x and q keys, runs the tracking step when tracking is enabled, and
increments i.  The viewer update of line 111 is an external side effect. -/
def loopBody {F P : Type} (env : LoopEnv F P) (_ret : Bool) (frame : Option F)
    (k : Int) (s : LoopState F P) : Except PyErr (LoopStep (LoopState F P)) :=
  let s1 : LoopState F P := { s with camImage := frame }
  if env.updateCameras frame = false then
    Except.error PyErr.valueError
  else
    let s2 := if s1.first = true ∨ k = ordD then
        { s1 with pose := env.body2world_pose, first := false, tracking := false }
      else s1
    let s3 := if k = ordX then { s2 with tracking := true } else s2
    if k = ordQ then
      Except.ok (LoopStep.brk s3)
    else
      let s4 := if s3.tracking = true then
          { s3 with pose := env.trackerStep s3.i s3.pose }
        else s3
      Except.ok (LoopStep.cont { s4 with i := s4.i + 1 })

/-- The state an outcome carries, whether the loop continues or breaks. -/
def LoopStep.state {σ : Type} : LoopStep σ → σ
  | LoopStep.cont s => s
  | LoopStep.brk s => s

/-! Theorems. -/

/-- C1, counterexample: it is false that every cost class stores the
model/data pair and a target and provides a residual method, because
CostWeightedGravity has no residual method and no target attribute and
CostPosture stores neither rmodel nor rdata. -/
theorem costClass_uniform_api_fails : costClasses.all costClassUniformAPI = false := by
  decide

/-- C1, amended: all six cost classes provide calc and calcDiff, and all but
CostWeightedGravity provide residual with calc equal to the sum of the
squared residual entries; Cost3d, Cost6d, CostGravity and CostWeightedGravity
store the model/data pair while CostPosture stores neither and
CostPostureDiff stores only the model; Cost3d, Cost6d, CostPosture and
CostPostureDiff store a target while the two gravity costs store none. -/
theorem costClass_api_amended :
    (costClasses.map (fun c => c.name)
        = [("Cost3d"), ("Cost6d"), ("CostPosture"), ("CostGravity"),
           ("CostWeightedGravity"), ("CostPostureDiff")]
      ∧ (costClasses.all (fun c =>
          c.methods.contains ("calc") && c.methods.contains ("calcDiff"))) = true
      ∧ (costClasses.all (fun c =>
          c.name == ("CostWeightedGravity") || c.methods.contains ("residual"))) = true
      ∧ CostWeightedGravityDesc.methods.contains ("residual") = false
      ∧ (CostPostureDesc.initAttrs.contains ("rmodel")
          || CostPostureDesc.initAttrs.contains ("rdata")) = false
      ∧ CostPostureDiffDesc.initAttrs.contains ("rmodel") = true
      ∧ CostPostureDiffDesc.initAttrs.contains ("rdata") = false
      ∧ (Cost3dDesc.initAttrs.contains ("rmodel")
          && Cost3dDesc.initAttrs.contains ("rdata")) = true
      ∧ (Cost6dDesc.initAttrs.contains ("rmodel")
          && Cost6dDesc.initAttrs.contains ("rdata")) = true
      ∧ (CostGravityDesc.initAttrs.contains ("rmodel")
          && CostGravityDesc.initAttrs.contains ("rdata")) = true
      ∧ (CostWeightedGravityDesc.initAttrs.contains ("rmodel")
          && CostWeightedGravityDesc.initAttrs.contains ("rdata")) = true
      ∧ costClassHasTarget Cost3dDesc = true
      ∧ costClassHasTarget Cost6dDesc = true
      ∧ costClassHasTarget CostPostureDesc = true
      ∧ costClassHasTarget CostPostureDiffDesc = true
      ∧ costClassHasTarget CostGravityDesc = false
      ∧ costClassHasTarget CostWeightedGravityDesc = false)
    ∧ (∀ (RData V : Type) (pin : Cost3dPin RData) (c : Cost3dObj RData V) (q : Vec),
        Cost3d.calc pin c q = npSumSq (Cost3d.residual pin c q))
    ∧ (∀ (RData SE3 V : Type) (pin : Cost6dPin RData SE3) (c : Cost6dObj RData SE3 V)
        (q : Vec), Cost6d.calc pin c q = npSumSq (Cost6d.residual pin c q))
    ∧ (∀ (c : CostPostureObj) (q : Vec),
        CostPosture.calc c q = npSumSq (CostPosture.residual c q))
    ∧ (∀ (RData V : Type) (pin : CostGravityPin RData) (c : CostGravityObj RData V)
        (q : Vec), CostGravity.calc pin c q = npSumSq (CostGravity.residual pin c q))
    ∧ (∀ (pin : CostPostureDiffPin) (c : CostPostureDiffObj) (q : Vec),
        CostPostureDiff.calc pin c q = npSumSq (CostPostureDiff.residual pin c q)) := by
  refine And.intro (by decide) ?_
  refine ⟨?_, ?_, ?_, ?_, ?_⟩
  all_goals intros
  all_goals rfl

/-- C2: running the self-test block crashes in the CostPosture case.  With
the free-flyer Talos model the test loads, CostPosture.calcDiff raises
AttributeError, so the assert comparing the analytical and numerical
gradients is never reached, whatever the integration map, the random
configurations and the step size. -/
theorem costPosture_selftest_crashes (integrate : Vec → Vec → Vec)
    (randq q : Vec) (eps : ℚ) :
    costPostureSelfTest talosModel integrate randq q eps
      = Except.error PyErr.attributeError := rfl

/-- C3: the intrinsics record has both focal lengths equal to
(width/2) / tan(deg2rad(fov) / 2), the principal point at the frame center,
and resolution fields equal to the frame size; it is built by
startupIntrinsics from the field of view and the first frame, before the
tracking loop. -/
theorem webcam_intrinsics_formula (np : NumpyMath) (fov w h : ℚ) :
    (intrinsics_approx np fov w h).fu = (w / 2) / np.tan (np.deg2rad fov / 2)
    ∧ (intrinsics_approx np fov w h).fv = (w / 2) / np.tan (np.deg2rad fov / 2)
    ∧ (intrinsics_approx np fov w h).ppu = w / 2
    ∧ (intrinsics_approx np fov w h).ppv = h / 2
    ∧ (intrinsics_approx np fov w h).width = w
    ∧ (intrinsics_approx np fov w h).height = h :=
  ⟨rfl, rfl, rfl, rfl, rfl, rfl⟩

/-- C4: one loop iteration raises an error exactly when
tracker.UpdateCameras reports malformed images, and the only error it can
raise is that ValueError. -/
theorem webcam_loop_error_iff {F P : Type} (env : LoopEnv F P) (ret : Bool)
    (frame : Option F) (k : Int) (s : LoopState F P) (e : PyErr) :
    loopBody env ret frame k s = Except.error e
      ↔ (e = PyErr.valueError ∧ env.updateCameras frame = false) := by
  unfold loopBody
  by_cases h : env.updateCameras frame = false
  · simp [h, eq_comm]
  · have h2 : env.updateCameras frame = true := by
      revert h
      cases env.updateCameras frame <;> simp
    simp only [h2, Bool.true_eq_false, if_false]
    constructor
    · intro hc
      split at hc <;> simp at hc
    · exact fun hc => hc.2.elim

/-- C5: the keyboard handling of the loop provides exactly three commands:
q breaks out of the loop, d resets the pose to the initial body2world_pose
and disables tracking, x enables tracking, and any two non-command keys
produce identical iterations. -/
theorem webcam_keyboard_commands {F P : Type} (env : LoopEnv F P) (ret : Bool)
    (frame : Option F) (k : Int) (s : LoopState F P)
    (hok : env.updateCameras frame = true) :
    (k = ordQ → ∃ s3, loopBody env ret frame k s = Except.ok (LoopStep.brk s3))
    ∧ (k = ordD → ∃ s4, loopBody env ret frame k s = Except.ok (LoopStep.cont s4)
        ∧ s4.pose = env.body2world_pose ∧ s4.tracking = false)
    ∧ (k = ordX → ∃ s4, loopBody env ret frame k s = Except.ok (LoopStep.cont s4)
        ∧ s4.tracking = true)
    ∧ (∀ k2, k ∉ ([ordQ, ordD, ordX] : List Int)
        → k2 ∉ ([ordQ, ordD, ordX] : List Int)
        → loopBody env ret frame k s = loopBody env ret frame k2 s) := by
  have hok2 : ¬ env.updateCameras frame = false := by simp [hok]
  refine ⟨?_, ?_, ?_, ?_⟩
  · intro hk
    subst hk
    unfold loopBody
    simp only [hok2, if_false, ordQ, ordD, ordX]
    norm_num
  · intro hk
    subst hk
    unfold loopBody
    simp only [hok2, if_false, ordQ, ordD, ordX]
    norm_num
  · intro hk
    subst hk
    unfold loopBody
    simp only [hok2, if_false, ordQ, ordD, ordX]
    norm_num
  · intro k2 hk hk2
    simp only [List.mem_cons, List.not_mem_nil, or_false] at hk hk2
    push_neg at hk hk2
    unfold loopBody
    simp [hk.1, hk.2.1, hk.2.2, hk2.1, hk2.2.1, hk2.2.2]

/-- Environment used to witness the keyboard theorem: the tracker accepts
every image, its step shifts the pose by one, and the initial pose is 0. -/
def wEnv : LoopEnv Unit Int :=
  { updateCameras := fun _ => true, trackerStep := fun _ p => p + 1,
    body2world_pose := 0 }

/-- State used to witness the keyboard theorem: past the first iteration,
tracking disabled, pose 5. -/
def wState : LoopState Unit Int :=
  { first := false, tracking := false, i := 0, pose := 5, camImage := none }

/-- C5, witness: the keyboard theorem applied at a concrete environment and
state for each of the keys q, d, x and for two non-command keys. -/
theorem webcam_keyboard_commands_witness :
    (∃ s3, loopBody wEnv true (some ()) ordQ wState = Except.ok (LoopStep.brk s3))
    ∧ (∃ s4, loopBody wEnv true (some ()) ordD wState = Except.ok (LoopStep.cont s4)
        ∧ s4.pose = wEnv.body2world_pose ∧ s4.tracking = false)
    ∧ (∃ s4, loopBody wEnv true (some ()) ordX wState = Except.ok (LoopStep.cont s4)
        ∧ s4.tracking = true)
    ∧ loopBody wEnv true (some ()) 0 wState = loopBody wEnv true (some ()) 1 wState :=
  ⟨(webcam_keyboard_commands wEnv true (some ()) ordQ wState rfl).1 rfl,
   (webcam_keyboard_commands wEnv true (some ()) ordD wState rfl).2.1 rfl,
   (webcam_keyboard_commands wEnv true (some ()) ordX wState rfl).2.2.1 rfl,
   (webcam_keyboard_commands wEnv true (some ()) 0 wState rfl).2.2.2 1
     (by decide) (by decide)⟩

/-- Environment used for the pose-mutation counterexample: the tracker
accepts every image, its step shifts the pose by one, initial pose 0. -/
def cEnv : LoopEnv Unit Int :=
  { updateCameras := fun _ => true, trackerStep := fun _ p => p + 1,
    body2world_pose := 0 }

/-- State used for the pose-mutation counterexample: past the first
iteration, tracking disabled, pose 5. -/
def cState : LoopState Unit Int :=
  { first := false, tracking := false, i := 0, pose := 5, camImage := none }

/-- C6, counterexample: an iteration after the first whose key is x, with
tracking disabled at entry, changes body.body2world_pose, because the x
branch enables tracking and the tracking step of the same iteration then
runs.  The pose moves from 5 to 6 although the key is not d. -/
theorem webcam_pose_changes_without_d :
    cState.first = false ∧ cState.tracking = false ∧ ordX ≠ ordD
    ∧ loopBody cEnv true (some ()) ordX cState
        = Except.ok (LoopStep.cont
            { first := false, tracking := true, i := 1, pose := 6,
              camImage := some () })
    ∧ cState.pose = 5 ∧ (5 : Int) ≠ 6 := by
  exact ⟨rfl, rfl, by decide, rfl, rfl, by decide⟩

/-- C6, amended: for every loop iteration after the first in which the
pressed key is neither d nor x and tracking is disabled, the loop body
leaves body.body2world_pose unchanged. -/
theorem webcam_pose_unchanged_amended {F P : Type} (env : LoopEnv F P)
    (ret : Bool) (frame : Option F) (k : Int) (s : LoopState F P)
    (hok : env.updateCameras frame = true) (hfirst : s.first = false)
    (hd : k ≠ ordD) (hx : k ≠ ordX) (htrack : s.tracking = false) :
    ∃ st, loopBody env ret frame k s = Except.ok st
      ∧ (LoopStep.state st).pose = s.pose := by
  have hok2 : ¬ env.updateCameras frame = false := by simp [hok]
  unfold loopBody
  simp only [hok2, if_false, hfirst, hd, hx, htrack]
  by_cases hq : k = ordQ <;> simp [hq, hfirst, hd, hx, htrack, LoopStep.state]

/-- C6, witness for the amended statement: applied at a concrete environment
and state with the non-command key 0. -/
theorem webcam_pose_unchanged_amended_witness :
    ∃ st, loopBody cEnv true (some ()) 0 cState = Except.ok st
      ∧ (LoopStep.state st).pose = cState.pose :=
  webcam_pose_unchanged_amended cEnv true (some ()) 0 cState rfl rfl
    (by decide) (by decide) rfl

/-- C7: the webcam script declares exactly six flags with the option strings
of the source; parsing fails when body_name or models_dir is absent; and when
only the two required arguments are given, the remaining four take their
defaults 50.0, 0.001, tmp and false. -/
theorem webcam_cli_flags (given : List (String × PyVal)) (b m : String) :
    webcamArgSpecs.length = 6
    ∧ webcamArgSpecs.map (fun a => a.flags)
        = [[("-b"), ("--body_name")], [("-m"), ("--models_dir")], [("--fov")],
           [("--scale_geometry")], [("--tmp_dir")], [("--use_region")]]
    ∧ webcamArgSpecs.map (fun a => a.required)
        = [true, true, false, false, false, false]
    ∧ (List.lookup ("body_name") given = none →
        parseArgs webcamArgSpecs given = Except.error ("body_name"))
    ∧ (List.lookup ("models_dir") given = none →
        ∃ e, parseArgs webcamArgSpecs given = Except.error e)
    ∧ parseArgs webcamArgSpecs
        [(("body_name"), PyVal.str b), (("models_dir"), PyVal.str m)]
      = Except.ok
        [(("body_name"), some (PyVal.str b)),
         (("models_dir"), some (PyVal.str m)),
         (("fov"), some (PyVal.float 50)),
         (("scale_geometry"), some (PyVal.float (1/1000))),
         (("tmp_dir"), some (PyVal.str ("tmp"))),
         (("use_region"), some (PyVal.bool false))] := by
  refine And.intro rfl (And.intro rfl (And.intro rfl ?_))
  refine And.intro ?_ (And.intro ?_ rfl)
  · intro h
    simp [parseArgs, resolveArg, webcamArgSpecs, h]
  · intro h
    cases hlb : List.lookup ("body_name") given with
    | none =>
      exact ⟨("body_name"), by simp [parseArgs, resolveArg, webcamArgSpecs, hlb]⟩
    | some v =>
      exact ⟨("models_dir"), by simp [parseArgs, resolveArg, webcamArgSpecs, hlb, h]⟩

/-- C7, witness: parsing the empty command line fails on body_name, and
parsing with only body_name fails on models_dir. -/
theorem webcam_cli_flags_witness :
    parseArgs webcamArgSpecs [] = Except.error ("body_name")
    ∧ ∃ e, parseArgs webcamArgSpecs [(("body_name"), PyVal.str ("x"))]
        = Except.error e :=
  ⟨(webcam_cli_flags [] ("x") ("y")).2.2.2.1 rfl,
   (webcam_cli_flags [(("body_name"), PyVal.str ("x"))] ("x") ("y")).2.2.2.2.1 rfl⟩

/-- C8: for every model whose first joint is a free flyer, meaning
joints[1].nq is 7, CostPosture.calcDiff raises AttributeError on every
configuration, because the constructor never stores rmodel on self while the
free-flyer branch reads self.rmodel.nv. -/
theorem costPosture_calcDiff_raises {RData : Type} (rmodel : RModel)
    (rdata : RData) (qref? : Option Vec) (randomConfiguration : Vec) (q : Vec)
    (h : rmodel.jointsNq 1 = 7) :
    CostPosture.calcDiff (CostPosture.init rmodel rdata qref? randomConfiguration) q
      = Except.error PyErr.attributeError := by
  simp [CostPosture.init, CostPosture.calcDiff, h]

/-- C8, witness: the theorem applied to the Talos stand-in model at a
concrete configuration. -/
theorem costPosture_calcDiff_raises_witness :
    CostPosture.calcDiff (CostPosture.init talosModel () none []) []
      = Except.error PyErr.attributeError :=
  costPosture_calcDiff_raises talosModel () none [] [] rfl

/-- C9: for every Cost6d object constructed with a viz that is not None,
callback raises NameError on every configuration, because line 69 reads the
name M which is bound neither in the local scope nor among the module
globals. -/
theorem cost6d_callback_raises {RData SE3 V : Type} (pin : Cost6dPin RData SE3)
    (rmodel : RModel) (rdata : RData) (frame_index? : Option Nat)
    (Mtarget? : Option SE3) (v : V) (q : Vec) :
    Cost6d.callback (Cost6d.init pin rmodel rdata frame_index? Mtarget? (some v)) q
      = Except.error PyErr.nameError := rfl

/-- C10: the startup frame read is unchecked: whatever the success flag of
vid.read(), a None frame makes the shape unpacking raise AttributeError, and
a present frame yields the intrinsics of its size; the ValueError check of
the loop is never involved. -/
theorem webcam_startup_unchecked_read (np : NumpyMath) (fov : ℚ) :
    (∀ ret : Bool,
      startupIntrinsics np fov (ret, none) = Except.error PyErr.attributeError)
    ∧ (∀ (ret : Bool) (f : CamFrame),
      startupIntrinsics np fov (ret, some f)
        = Except.ok (intrinsics_approx np fov (f.width : ℚ) (f.height : ℚ))) :=
  ⟨fun _ => rfl, fun _ _ => rfl⟩
